import Mathlib

/-!
# Verification of the Audio-Transcriber core (src/PyWhis.py)

Shallow embedding of the two background workers of `src/PyWhis.py`:

* `TranscriptionWorker` (`run`, `write_error_log`, `cancel`, lines 82-176):
  the batch transcription loop with per-file failure isolation, cooperative
  cancellation, error-log persistence and the final summary signal;
* `ModelDownloadWorker` (`run` and its local `report_progress`, lines 36-79):
  model acquisition with an already-exists fast path and download progress
  reporting.

External effects are made explicit:

* the Whisper model capability (`self.model.transcribe`) and the file system
  are oracles: each input file carries the outcome its transcription call
  would have (`Except`: error message or transcript text) and an optional
  fault for the output-write step (`mkdir` + `open` + `write`, which the
  source guards with one `try`); the error-log write may likewise fault;
* wall-clock readings (`time.time()`) are abstracted into a per-file duration
  and a total duration supplied by the environment - no claim constrains them;
* Qt signal emissions and file-system writes become an ordered trace of
  `Event`s, so temporal claims are statements about the trace;
* `datetime.now()` is an input (`DateTime`), and `strftime` is embedded for
  the two format strings the source uses.

Status-message texts are reproduced up to the emoji prefixes of the source
(which carry no information used by any claim).
-/

/-- Maximal whitespace-delimited runs of a character list; `acc` holds the
(reversed) characters of the token currently being read. -/
def splitWsAux : List Char → List Char → List (List Char)
  | [], [] => []
  | [], acc => [acc.reverse]
  | c :: rest, acc =>
    if c.isWhitespace then
      match acc with
      | [] => splitWsAux rest []
      | _ :: _ => acc.reverse :: splitWsAux rest []
    else splitWsAux rest (c :: acc)

/-- `str.split()` of Python with no argument: split on whitespace runs,
leading/trailing whitespace ignored, no empty tokens
(`PyWhis.py` line 119 `result['text'].split()`). -/
def pySplit (s : String) : List String :=
  (splitWsAux s.data []).map String.mk

/-- `len(result['text'].split())` - the word count of a transcript
(`PyWhis.py` line 119). -/
def countWords (text : String) : Nat :=
  (pySplit text).length

/-- Characters of the final path component: everything after the last `/`. -/
def pathNameAux : List Char → List Char → List Char
  | [], acc => acc.reverse
  | c :: rest, acc => if c = '/' then pathNameAux rest [] else pathNameAux rest (c :: acc)

/-- `Path(p).name`: the final path component (`PyWhis.py` line 109). -/
def pathName (p : String) : String :=
  String.mk (pathNameAux p.data [])

/-- Index of the last `.` in a character list, if any. -/
def lastDotIdx (cs : List Char) : Option Nat :=
  ((List.range cs.length).filter (fun i => cs.getD i ' ' = '.')).getLast?

/-- `Path(p).stem`: the final component without its suffix; as in CPython,
a dot at position 0 or in final position yields no suffix
(`PyWhis.py` line 124). -/
def pathStem (p : String) : String :=
  let n := (pathName p).data
  match lastDotIdx n with
  | some i => if 0 < i ∧ i < n.length - 1 then String.mk (n.take i) else String.mk n
  | none => String.mk n

/-- `str(Path(dir) / fname)` for a plain relative file name. -/
def pathJoin (dir fname : String) : String :=
  dir ++ "/" ++ fname

/-- A string of `n` copies of `c` (Python `c * n`, `PyWhis.py` lines 163, 167). -/
def repChar (c : Char) (n : Nat) : String :=
  String.mk (List.replicate n c)

/-- A wall-clock reading broken into calendar fields, standing for
`datetime.now()`. -/
structure DateTime where
  year : Nat
  month : Nat
  day : Nat
  hour : Nat
  minute : Nat
  second : Nat
  deriving Repr, DecidableEq

/-- Zero-padded two-digit field (`strftime` `%m`/`%d`/`%H`/`%M`/`%S`). -/
def pad2 (n : Nat) : String :=
  if n < 10 then "0" ++ toString n else toString n

/-- Zero-padded four-digit field (`strftime` `%Y`). -/
def pad4 (n : Nat) : String :=
  if n < 10 then "000" ++ toString n
  else if n < 100 then "00" ++ toString n
  else if n < 1000 then "0" ++ toString n
  else toString n

/-- `strftime("%Y%m%d_%H%M%S")` (`PyWhis.py` line 158). -/
def strftimeCompact (d : DateTime) : String :=
  pad4 d.year ++ pad2 d.month ++ pad2 d.day ++ "_" ++
    pad2 d.hour ++ pad2 d.minute ++ pad2 d.second

/-- `strftime("%Y-%m-%d %H:%M:%S")` (`PyWhis.py` line 162). -/
def strftimeHuman (d : DateTime) : String :=
  pad4 d.year ++ "-" ++ pad2 d.month ++ "-" ++ pad2 d.day ++ " " ++
    pad2 d.hour ++ ":" ++ pad2 d.minute ++ ":" ++ pad2 d.second

/-!
### Double-precision arithmetic

CPython evaluates `int((downloaded / total_size) * 100)` (`PyWhis.py`
lines 67 and 138) in IEEE-754 binary64: a correctly rounded division, a
correctly rounded multiplication by 100, then truncation.  This can differ
from the exact `floor(downloaded * 100 / total_size)` - e.g. 29000000 of
100000000 bytes gives 28, not 29, because the double nearest 0.29 lies just
below it.  The model below computes binary64 round-to-nearest-ties-to-even
exactly, representing a nonnegative double as a dyadic pair `(m, e)` with
value `m * 2 ^ e`.  The normal range only is covered: subnormal underflow
and infinity overflow cannot arise from the byte counts and file indices the
program divides. -/

/-- `⌊log₂ n⌋` by fuel-driven structural recursion (`fuel ≥ n` suffices),
so the kernel can evaluate it on literals. -/
def floorLog2Aux : Nat → Nat → Nat
  | 0, _ => 0
  | fuel + 1, n => if 2 ≤ n then floorLog2Aux fuel (n / 2) + 1 else 0

/-- `⌊log₂ n⌋` (zero for `n = 0`). -/
def floorLog2 (n : Nat) : Nat := floorLog2Aux n n

/-- Round the nonnegative rational `A / B` to the nearest integer, ties to
even. -/
def rne (A B : Nat) : Nat :=
  let q := A / B
  let r := A % B
  if B < 2 * r then q + 1
  else if 2 * r < B then q
  else if q % 2 = 0 then q else q + 1

/-- Does `2 ^ d ≤ A / B` hold, for positive `A` and `B`? -/
def twoPowLe (d : Int) (A B : Nat) : Bool :=
  if 0 ≤ d then decide (B * 2 ^ d.toNat ≤ A) else decide (B ≤ A * 2 ^ (-d).toNat)

/-- `⌊log₂ (A / B)⌋` for positive `A` and `B`. -/
def ratFloorLog2 (A B : Nat) : Int :=
  let d : Int := (floorLog2 A : Int) - (floorLog2 B : Int)
  if twoPowLe d A B then d else d - 1

/-- The binary64 rounding (to nearest, ties to even) of the nonnegative
rational `A / B`, as an exact dyadic `(m, e)` of value `m * 2 ^ e` with
`m ∈ [2^52, 2^53]` (normal range; see the section comment). -/
def roundB64 (A B : Nat) : Nat × Int :=
  if A = 0 then (0, 0)
  else
    let e := ratFloorLog2 A B
    let s : Int := 52 - e
    let m := if 0 ≤ s then rne (A * 2 ^ s.toNat) B else rne A (B * 2 ^ (-s).toNat)
    (m, e - 52)

/-- Python float true division `a / b` of two nonnegative ints. -/
def pyFloatDiv (a b : Nat) : Nat × Int := roundB64 a b

/-- Python float multiplication of a nonnegative double by `100`, rounded
back to binary64. -/
def pyFloatMul100 (v : Nat × Int) : Nat × Int :=
  if 0 ≤ v.2 then roundB64 (v.1 * 100 * 2 ^ v.2.toNat) 1
  else roundB64 (v.1 * 100) (2 ^ (-v.2).toNat)

/-- Python `int(x)` of a nonnegative dyadic double (truncation = floor). -/
def dyadicFloor (v : Nat × Int) : Nat :=
  if 0 ≤ v.2 then v.1 * 2 ^ v.2.toNat else v.1 / 2 ^ (-v.2).toNat

/-- `int((num / den) * 100)` exactly as CPython computes it in binary64
(`PyWhis.py` lines 67 and 138). -/
def pyPercent (num den : Nat) : Nat :=
  dyadicFloor (pyFloatMul100 (pyFloatDiv num den))

instance {α β : Type} [DecidableEq α] [DecidableEq β] : DecidableEq (Except α β) :=
  fun a b =>
    match a, b with
    | .ok x, .ok y =>
      if h : x = y then isTrue (by rw [h]) else isFalse (by intro he; cases he; exact h rfl)
    | .error x, .error y =>
      if h : x = y then isTrue (by rw [h]) else isFalse (by intro he; cases he; exact h rfl)
    | .ok _, .error _ => isFalse (by intro h; cases h)
    | .error _, .ok _ => isFalse (by intro h; cases h)

/-- One input file together with the oracle outcomes of the external calls
made for it: the transcription call (`self.model.transcribe`, line 115)
either raises (`.error msg`) or returns a transcript text (`.ok text`); the
output-write step (lines 123-126, `mkdir` + `save_transcription`) either
succeeds (`none`) or raises (`some msg`).  `duration` is the wall-clock
elapsed around the transcription call (line 114/116). -/
structure FileSpec where
  path : String
  transcribed : Except String String
  writeFault : Option String
  duration : Int
  deriving Repr, DecidableEq

/-- Environment of one `TranscriptionWorker.run` invocation: the constructor
arguments of the worker (lines 89-96) other than the file list, plus the
oracle outcomes of the remaining external calls. -/
structure RunConfig where
  /-- `self.output_dir`. -/
  output_dir : String
  /-- `self.error_log_path`; the empty string is Python-falsy "not set". -/
  error_log_path : String
  /-- `some msg` when the error-log write (lines 154-167) raises. -/
  logFault : Option String
  /-- `datetime.now()` at line 158 (log file name). -/
  nowName : DateTime
  /-- `datetime.now()` at line 162 (log header). -/
  nowHeader : DateTime
  /-- `self.get_time() - start_time` at line 145. -/
  totalDuration : Int
  deriving Repr, DecidableEq

/-- One observable step of the transcription worker: a Qt signal emission or
a file-system write, in the order the source performs them. -/
inductive Event where
  /-- `self.progress.emit` (line 139). -/
  | progress (pct : Nat)
  /-- `self.status.emit` (lines 106, 110, 135). -/
  | status (msg : String)
  /-- `self.file_complete.emit(file_name, file_duration, word_count)` (line 129). -/
  | file_complete (filename : String) (dur : Int) (words : Nat)
  /-- `self.error.emit(filename, error_message)` (lines 134, 169). -/
  | error (filename : String) (msg : String)
  /-- `self.all_complete.emit(total_duration, total_words, successful_files)` (line 146). -/
  | all_complete (dur : Int) (words : Nat) (successful : Nat)
  /-- An output transcript written to disk by `save_transcription`
  (lines 123-126, 148-150), with its full content. -/
  | fsWrite (path : String) (content : String)
  /-- The error-log file written to disk by `write_error_log`
  (lines 156-167), with its full content. -/
  | log_write (path : String) (content : String)
  deriving Repr, DecidableEq

/-- The failure the loop body records for `f`, if any: the message of a
failed transcription call, or else the fault of the output-write step.
`none` means the file is fully processed (success result emitted). -/
def fileFailure (f : FileSpec) : Option String :=
  match f.transcribed with
  | Except.error e => some e
  | Except.ok _ => f.writeFault

/-- The word count the loop body adds to `total_words` for `f`: zero when the
transcription call fails, the transcript word count when it returns
(`PyWhis.py` lines 119-120; note line 120 runs before the write attempt). -/
def okWords (f : FileSpec) : Nat :=
  match f.transcribed with
  | Except.ok t => countWords t
  | Except.error _ => 0

/-- The files the loop actually attempts, starting at iteration index `idx`:
the prefix of the list cut at the first iteration boundary where the
cancellation flag reads true. -/
def attemptedOf (flag : Nat → Bool) : Nat → List FileSpec → List FileSpec
  | _, [] => []
  | idx, f :: rest => if flag idx then [] else f :: attemptedOf flag (idx + 1) rest

/-- The number of files of a list of length `n` attempted from index `idx`:
determined by the cancellation flag alone. -/
def cancelCutoff (flag : Nat → Bool) : Nat → Nat → Nat
  | _, 0 => 0
  | idx, n + 1 => if flag idx then 0 else cancelCutoff flag (idx + 1) n + 1

/-- The loop state of `TranscriptionWorker.run`: the local accumulators
`total_words`, `successful_files` (lines 100-101), the instance list
`self.errors` (line 96), and the trace of events so far. -/
structure LoopState where
  total_words : Nat
  successful_files : Nat
  errors : List (String × String)
  trace : List Event
  deriving Repr, DecidableEq

/-- The loop body for one file (`PyWhis.py` lines 109-139, minus the
cancellation check): status emission, the guarded transcribe/write block,
and the unconditional progress emission. -/
def processFile (cfg : RunConfig) (total_files idx : Nat) (f : FileSpec)
    (st : LoopState) : LoopState :=
  let file_name := pathName f.path
  let st1 := { st with trace := st.trace ++
    [Event.status ("Transcribing " ++ file_name ++ " (" ++ toString (idx + 1) ++
      "/" ++ toString total_files ++ ")...")] }
  let st2 :=
    match f.transcribed with
    | Except.ok text =>
      -- word_count is added to total_words (line 120) BEFORE the output
      -- write is attempted (lines 123-126).
      let word_count := countWords text
      let withWords := { st1 with total_words := st1.total_words + word_count }
      match f.writeFault with
      | none =>
        let output_path := pathJoin cfg.output_dir (pathStem f.path ++ ".txt")
        { withWords with
          successful_files := withWords.successful_files + 1
          trace := withWords.trace ++
            [Event.fsWrite output_path text,
             Event.file_complete file_name f.duration word_count] }
      | some e =>
        { withWords with
          errors := withWords.errors ++ [(file_name, e)]
          trace := withWords.trace ++
            [Event.error file_name e,
             Event.status ("Skipped " ++ file_name ++ " due to error")] }
    | Except.error e =>
      { st1 with
        errors := st1.errors ++ [(file_name, e)]
        trace := st1.trace ++
          [Event.error file_name e,
           Event.status ("Skipped " ++ file_name ++ " due to error")] }
  { st2 with trace := st2.trace ++ [Event.progress (pyPercent (idx + 1) total_files)] }

/-- The `for idx, file_path in enumerate(self.files)` loop (lines 104-139).
`flag idx` is the value of `self.is_cancelled` observed at the iteration
boundary of index `idx` (the flag is read nowhere else). -/
def runLoop (cfg : RunConfig) (flag : Nat → Bool) (total_files : Nat) :
    Nat → List FileSpec → LoopState → LoopState
  | _, [], st => st
  | idx, f :: rest, st =>
    if flag idx then
      { st with trace := st.trace ++ [Event.status "Transcription cancelled"] }
    else
      runLoop cfg flag total_files (idx + 1) rest (processFile cfg total_files idx f st)

/-- `TranscriptionWorker.write_error_log` (lines 152-169): on success, one
log file is written whose content is built sequentially (header, `=`-rule,
then one block per recorded error); on an internal fault, an error signal is
emitted instead. -/
def write_error_log (cfg : RunConfig) (errors : List (String × String)) : List Event :=
  match cfg.logFault with
  | some e => [Event.error "Error Log" ("Could not write error log: " ++ e)]
  | none =>
    let timestamp := strftimeCompact cfg.nowName
    let log_file := pathJoin cfg.error_log_path
      ("transcription_errors_" ++ timestamp ++ ".log")
    let content := errors.foldl
      (fun acc pr => acc ++ "File: " ++ pr.1 ++ "\n" ++ "Error: " ++ pr.2 ++ "\n" ++
        repChar '-' 70 ++ "\n\n")
      ("Transcription Error Log - " ++ strftimeHuman cfg.nowHeader ++ "\n" ++
        repChar '=' 70 ++ "\n\n")
    [Event.log_write log_file content]

namespace TranscriptionWorker

/-- `TranscriptionWorker.run` (lines 98-146): the loop, then the conditional
error-log write (`if self.errors and self.error_log_path`), then the final
`all_complete` emission. -/
def run (cfg : RunConfig) (flag : Nat → Bool) (files : List FileSpec) : LoopState :=
  let total_files := files.length
  let st := runLoop cfg flag total_files 0 files ⟨0, 0, [], []⟩
  let st :=
    if st.errors ≠ [] ∧ cfg.error_log_path ≠ "" then
      { st with trace := st.trace ++ write_error_log cfg st.errors }
    else st
  { st with trace := st.trace ++
      [Event.all_complete cfg.totalDuration st.total_words st.successful_files] }

/-- The mutable cancellation state of the worker object (line 95). -/
structure Flags where
  is_cancelled : Bool
  deriving Repr, DecidableEq

/-- `TranscriptionWorker.cancel` (lines 175-176): the only writer of
`is_cancelled`, and it only sets it to `True`. -/
def cancel (s : Flags) : Flags :=
  { s with is_cancelled := true }

end TranscriptionWorker

/-- The events one loop iteration appends for file `f` at index `idx`
(closed form of `processFile`'s trace growth). -/
def fileChunk (cfg : RunConfig) (total_files idx : Nat) (f : FileSpec) : List Event :=
  Event.status ("Transcribing " ++ pathName f.path ++ " (" ++ toString (idx + 1) ++
      "/" ++ toString total_files ++ ")...") ::
  (match f.transcribed with
   | Except.ok text =>
     match f.writeFault with
     | none =>
       [Event.fsWrite (pathJoin cfg.output_dir (pathStem f.path ++ ".txt")) text,
        Event.file_complete (pathName f.path) f.duration (countWords text)]
     | some e =>
       [Event.error (pathName f.path) e,
        Event.status ("Skipped " ++ pathName f.path ++ " due to error")]
   | Except.error e =>
     [Event.error (pathName f.path) e,
      Event.status ("Skipped " ++ pathName f.path ++ " due to error")]) ++
  [Event.progress (pyPercent (idx + 1) total_files)]

/-- The whole trace of the `for` loop, starting at index `idx` (closed form
of `runLoop`'s trace growth). -/
def loopTrace (cfg : RunConfig) (flag : Nat → Bool) (total_files : Nat) :
    Nat → List FileSpec → List Event
  | _, [] => []
  | idx, f :: rest =>
    if flag idx then [Event.status "Transcription cancelled"]
    else fileChunk cfg total_files idx f ++ loopTrace cfg flag total_files (idx + 1) rest

/-- The per-file result event the worker emits for an attempted file `f`:
`file_complete` on full success, `error` otherwise. -/
def resultEvent (f : FileSpec) : Event :=
  match fileFailure f with
  | none => Event.file_complete (pathName f.path) f.duration (okWords f)
  | some e => Event.error (pathName f.path) e

/-- Is this event a per-file result (`file_complete` or `error` signal)? -/
def isResult : Event → Bool
  | Event.file_complete _ _ _ => true
  | Event.error _ _ => true
  | _ => false

/-- Is this event the batch summary (`all_complete` signal)? -/
def isAllComplete : Event → Bool
  | Event.all_complete _ _ _ => true
  | _ => false

/-- Is this event the write of an error-log file? -/
def isLogWriteEvent : Event → Bool
  | Event.log_write _ _ => true
  | _ => false

/-- Is this event a `progress` emission? -/
def isProgressEvent : Event → Bool
  | Event.progress _ => true
  | _ => false

/-- The word counts carried by the `file_complete` (per-file success) events
of a trace, summed. -/
def sumResultWords (tr : List Event) : Nat :=
  (tr.filterMap (fun e =>
    match e with
    | Event.file_complete _ _ w => some w
    | _ => none)).sum

/-- Header of the error log (`PyWhis.py` lines 162-163). -/
def logHeader (cfg : RunConfig) : String :=
  "Transcription Error Log - " ++ strftimeHuman cfg.nowHeader ++ "\n" ++
    repChar '=' 70 ++ "\n\n"

/-- One `File:`/`Error:` block of the error log (`PyWhis.py` lines 164-167). -/
def errBlock (pr : String × String) : String :=
  "File: " ++ pr.1 ++ "\n" ++ "Error: " ++ pr.2 ++ "\n" ++ repChar '-' 70 ++ "\n\n"

/-- Concatenation of the `File:`/`Error:` blocks of a failure list, one
block per failure, in order. -/
def blocksConcat : List (String × String) → String
  | [] => ""
  | pr :: l => errBlock pr ++ blocksConcat l

/-- Full content of the error log for a failure list. -/
def logContent (cfg : RunConfig) (errors : List (String × String)) : String :=
  logHeader cfg ++ blocksConcat errors

/-- Name of the error-log file (`PyWhis.py` lines 158-159). -/
def logFileName (cfg : RunConfig) : String :=
  pathJoin cfg.error_log_path
    ("transcription_errors_" ++ strftimeCompact cfg.nowName ++ ".log")

/-- The `(filename, error_message)` entry the loop appends to `self.errors`
for file `f`, if its processing fails. -/
def errEntry (f : FileSpec) : Option (String × String) :=
  (fileFailure f).map (fun e => (pathName f.path, e))

/-- The failure list `self.errors` as the loop leaves it, in closed form:
one entry per attempted file with a recorded failure, in input order. -/
def runErrors (flag : Nat → Bool) (files : List FileSpec) : List (String × String) :=
  (attemptedOf flag 0 files).filterMap errEntry

/-- The final `total_words` in closed form. -/
def runWords (flag : Nat → Bool) (files : List FileSpec) : Nat :=
  ((attemptedOf flag 0 files).map okWords).sum

/-- The final `successful_files` in closed form. -/
def runSucc (flag : Nat → Bool) (files : List FileSpec) : Nat :=
  ((attemptedOf flag 0 files).filter (fun f => (fileFailure f).isNone)).length

/-- The apostrophe character, used by Python `str(KeyError)` rendering. -/
def squote : String :=
  String.singleton (Char.ofNat 39)

/-- `MODEL_URLS` (`PyWhis.py` lines 17-24), as an association list preserving
the source order. -/
def MODEL_URLS : List (String × String) :=
  [("tiny", "https://openaipublic.azureedge.net/main/whisper/models/65147644a518d12f04e32d6f3b26facc3f8dd46e5390956a9424a650c0ce22b9/tiny.pt"),
   ("base", "https://openaipublic.azureedge.net/main/whisper/models/ed3a0b6b1c0edf879ad9b11b1af5a0e6ab5db9205f891f668f8b0e6c6326e34e/base.pt"),
   ("small", "https://openaipublic.azureedge.net/main/whisper/models/9ecf779972d90ba49c06d968637d720dd632c55bbf19d441fb42bf17a411e794/small.pt"),
   ("medium", "https://openaipublic.azureedge.net/main/whisper/models/345ae4da62f9b3d59415adc60127b97c714f32e89e936602e85993674d08dcb1/medium.pt"),
   ("large-v2", "https://openaipublic.azureedge.net/main/whisper/models/81f7c96c852ee8fc832187b0132e569d6c3065a3252ed18e56effd0b6a73e524/large-v2.pt"),
   ("large-v3", "https://openaipublic.azureedge.net/main/whisper/models/e5b1a55b89c1367dacf97e3e19bfd829a01529dbfdeefa8caeb59b3f1b81dadb/large-v3.pt")]

/-- `MODEL_SIZES` (`PyWhis.py` lines 26-33). -/
def MODEL_SIZES : List (String × String) :=
  [("tiny", "~75 MB"),
   ("base", "~142 MB"),
   ("small", "~466 MB"),
   ("medium", "~1.5 GB"),
   ("large-v2", "~3 GB"),
   ("large-v3", "~3 GB")]

/-- Format `bytes / (1024*1024)` with one decimal place, the exact-rational
reading of Python `f"{x:.1f}"` (round to nearest tenth, ties to even;
the double-precision detour of the source is abstracted away). -/
def fmtMB (bytes : Nat) : String :=
  let denom := 1024 * 1024
  let q := bytes * 10 / denom
  let r := bytes * 10 % denom
  let rounded :=
    if denom < 2 * r then q + 1
    else if 2 * r < denom then q
    else if q % 2 = 0 then q else q + 1
  toString (rounded / 10) ++ "." ++ toString (rounded % 10)

/-- One observable step of the model-download worker: a Qt signal emission
or an external action (directory creation, start of the network transfer). -/
inductive DlEvent where
  /-- `self.progress.emit` (line 68). -/
  | progress (pct : Nat)
  /-- `self.status.emit` (lines 54, 62, 71, 75). -/
  | status (msg : String)
  /-- `self.finished_download.emit(str(model_path))` (lines 55, 76). -/
  | finished_download (model_path : String)
  /-- `self.error.emit` (line 79). -/
  | error (msg : String)
  /-- `Path(self.models_dir).mkdir(parents=True, exist_ok=True)` (line 59). -/
  | mkdir (dir : String)
  /-- The network transfer of `urllib.request.urlretrieve(url, dest)`
  (line 73) being started. -/
  | transfer (url : String) (dest : String)
  deriving Repr, DecidableEq

/-- The local `report_progress` hook (`PyWhis.py` lines 64-71): `urlretrieve`
calls it with a block count, a block size and the total size from the
`Content-Length` header (negative when unknown).  Emits nothing when the
total size is not positive. -/
def report_progress (block_num block_size : Nat) (total_size : Int) : List DlEvent :=
  let downloaded := block_num * block_size
  if 0 < total_size then
    let percent := pyPercent downloaded total_size.toNat
    [DlEvent.progress percent,
     DlEvent.status ("Downloading: " ++ fmtMB downloaded ++ " MB / " ++
       fmtMB total_size.toNat ++ " MB")]
  else []

/-- Environment of one `ModelDownloadWorker.run` invocation: what
`model_path.exists()` returns, the sequence of report-hook invocations the
transfer performs (each `(block_num, block_size, total_size)`), and whether
the transfer itself raises (`some msg`) or completes (`none`). -/
structure DlEnv where
  modelExists : Bool
  blocks : List (Nat × Nat × Int)
  transferFault : Option String
  deriving Repr, DecidableEq

namespace ModelDownloadWorker

/-- `ModelDownloadWorker.run` (`PyWhis.py` lines 47-79).  An unknown model
name raises `KeyError` at line 49, caught at line 78; `str(KeyError(k))` is
the key in single quotes. -/
def run (model_name models_dir : String) (env : DlEnv) : List DlEvent :=
  match MODEL_URLS.lookup model_name with
  | none => [DlEvent.error ("Download failed: " ++ squote ++ model_name ++ squote)]
  | some url =>
    let model_path := pathJoin models_dir (model_name ++ ".pt")
    if env.modelExists then
      [DlEvent.status "Model already exists, loading...",
       DlEvent.finished_download model_path]
    else
      let size := (MODEL_SIZES.lookup model_name).getD ""
      let pre := [DlEvent.mkdir models_dir,
        DlEvent.status ("Downloading " ++ model_name ++ " model (" ++ size ++ ")..."),
        DlEvent.transfer url model_path]
      let hookEvents := (env.blocks.map
        (fun b => report_progress b.1 b.2.1 b.2.2)).flatten
      match env.transferFault with
      | some e => pre ++ hookEvents ++ [DlEvent.error ("Download failed: " ++ e)]
      | none => pre ++ hookEvents ++
          [DlEvent.status "Download complete, loading model...",
           DlEvent.finished_download model_path]

end ModelDownloadWorker

/-! ## Structural lemmas about the transcription loop -/

lemma processFile_total_words (cfg : RunConfig) (total_files idx : Nat)
    (f : FileSpec) (st : LoopState) :
    (processFile cfg total_files idx f st).total_words = st.total_words + okWords f := by
  unfold processFile okWords
  cases h : f.transcribed with
  | ok t => cases hw : f.writeFault <;> simp [hw]
  | error e => simp

lemma processFile_successful (cfg : RunConfig) (total_files idx : Nat)
    (f : FileSpec) (st : LoopState) :
    (processFile cfg total_files idx f st).successful_files =
      st.successful_files + (if (fileFailure f).isNone then 1 else 0) := by
  unfold processFile fileFailure
  cases h : f.transcribed with
  | ok t => cases hw : f.writeFault <;> simp [hw]
  | error e => simp

lemma processFile_errors (cfg : RunConfig) (total_files idx : Nat)
    (f : FileSpec) (st : LoopState) :
    (processFile cfg total_files idx f st).errors = st.errors ++ (errEntry f).toList := by
  unfold processFile errEntry fileFailure
  cases h : f.transcribed with
  | ok t => cases hw : f.writeFault <;> simp [hw]
  | error e => simp

lemma processFile_trace (cfg : RunConfig) (total_files idx : Nat)
    (f : FileSpec) (st : LoopState) :
    (processFile cfg total_files idx f st).trace = st.trace ++ fileChunk cfg total_files idx f := by
  unfold processFile fileChunk
  cases h : f.transcribed with
  | ok t => cases hw : f.writeFault <;> simp [hw]
  | error e => simp

lemma runLoop_total_words (cfg : RunConfig) (flag : Nat → Bool) (total_files : Nat)
    (l : List FileSpec) :
    ∀ (idx : Nat) (st : LoopState),
      (runLoop cfg flag total_files idx l st).total_words =
        st.total_words + ((attemptedOf flag idx l).map okWords).sum := by
  induction l with
  | nil => intro idx st; simp [runLoop, attemptedOf]
  | cons f rest ih =>
    intro idx st
    by_cases h : flag idx
    · simp [runLoop, attemptedOf, h]
    · simp only [runLoop, attemptedOf, h, if_false, Bool.false_eq_true, ite_false,
        List.map_cons, List.sum_cons]
      rw [ih, processFile_total_words]
      omega

lemma runLoop_successful (cfg : RunConfig) (flag : Nat → Bool) (total_files : Nat)
    (l : List FileSpec) :
    ∀ (idx : Nat) (st : LoopState),
      (runLoop cfg flag total_files idx l st).successful_files =
        st.successful_files +
          ((attemptedOf flag idx l).filter (fun f => (fileFailure f).isNone)).length := by
  induction l with
  | nil => intro idx st; simp [runLoop, attemptedOf]
  | cons f rest ih =>
    intro idx st
    by_cases h : flag idx
    · simp [runLoop, attemptedOf, h]
    · simp only [runLoop, attemptedOf, h, Bool.false_eq_true, ite_false, List.filter_cons]
      rw [ih, processFile_successful]
      by_cases hf : (fileFailure f).isNone
      · simp [hf]; omega
      · simp [hf]

lemma runLoop_errors (cfg : RunConfig) (flag : Nat → Bool) (total_files : Nat)
    (l : List FileSpec) :
    ∀ (idx : Nat) (st : LoopState),
      (runLoop cfg flag total_files idx l st).errors =
        st.errors ++ (attemptedOf flag idx l).filterMap errEntry := by
  induction l with
  | nil => intro idx st; simp [runLoop, attemptedOf]
  | cons f rest ih =>
    intro idx st
    by_cases h : flag idx
    · simp [runLoop, attemptedOf, h]
    · simp only [runLoop, attemptedOf, h, Bool.false_eq_true, ite_false, List.filterMap_cons]
      rw [ih, processFile_errors]
      cases he : errEntry f <;> simp [he]

lemma runLoop_trace (cfg : RunConfig) (flag : Nat → Bool) (total_files : Nat)
    (l : List FileSpec) :
    ∀ (idx : Nat) (st : LoopState),
      (runLoop cfg flag total_files idx l st).trace =
        st.trace ++ loopTrace cfg flag total_files idx l := by
  induction l with
  | nil => intro idx st; simp [runLoop, loopTrace]
  | cons f rest ih =>
    intro idx st
    by_cases h : flag idx
    · simp [runLoop, loopTrace, h]
    · simp only [runLoop, loopTrace, h, Bool.false_eq_true, ite_false]
      rw [ih, processFile_trace, List.append_assoc]

lemma run_total_words (cfg : RunConfig) (flag : Nat → Bool) (files : List FileSpec) :
    (TranscriptionWorker.run cfg flag files).total_words = runWords flag files := by
  simp only [TranscriptionWorker.run]
  split
  · have := runLoop_total_words cfg flag files.length files 0 ⟨0, 0, [], []⟩
    simpa [runWords] using this
  · have := runLoop_total_words cfg flag files.length files 0 ⟨0, 0, [], []⟩
    simpa [runWords] using this

lemma run_successful (cfg : RunConfig) (flag : Nat → Bool) (files : List FileSpec) :
    (TranscriptionWorker.run cfg flag files).successful_files = runSucc flag files := by
  simp only [TranscriptionWorker.run]
  split
  · have := runLoop_successful cfg flag files.length files 0 ⟨0, 0, [], []⟩
    simpa [runSucc] using this
  · have := runLoop_successful cfg flag files.length files 0 ⟨0, 0, [], []⟩
    simpa [runSucc] using this

lemma run_errors (cfg : RunConfig) (flag : Nat → Bool) (files : List FileSpec) :
    (TranscriptionWorker.run cfg flag files).errors = runErrors flag files := by
  simp only [TranscriptionWorker.run]
  split
  · have := runLoop_errors cfg flag files.length files 0 ⟨0, 0, [], []⟩
    simpa [runErrors] using this
  · have := runLoop_errors cfg flag files.length files 0 ⟨0, 0, [], []⟩
    simpa [runErrors] using this

lemma run_trace (cfg : RunConfig) (flag : Nat → Bool) (files : List FileSpec) :
    (TranscriptionWorker.run cfg flag files).trace =
      loopTrace cfg flag files.length 0 files ++
        (if runErrors flag files ≠ [] ∧ cfg.error_log_path ≠ "" then
          write_error_log cfg (runErrors flag files) else []) ++
        [Event.all_complete cfg.totalDuration (runWords flag files) (runSucc flag files)] := by
  have htr := runLoop_trace cfg flag files.length files 0 ⟨0, 0, [], []⟩
  have herr := runLoop_errors cfg flag files.length files 0 ⟨0, 0, [], []⟩
  have hw := runLoop_total_words cfg flag files.length files 0 ⟨0, 0, [], []⟩
  have hs := runLoop_successful cfg flag files.length files 0 ⟨0, 0, [], []⟩
  simp only [TranscriptionWorker.run]
  split
  case isTrue h =>
    rw [if_pos]
    · simp only [htr, herr, hw, hs]
      simp [runErrors, runWords, runSucc, List.append_assoc]
    · rw [herr] at h
      simpa [runErrors] using h
  case isFalse h =>
    rw [if_neg]
    · simp only [htr, hw, hs]
      simp [runWords, runSucc]
    · rw [herr] at h
      simpa [runErrors] using h

lemma attemptedOf_eq_take (flag : Nat → Bool) (l : List FileSpec) :
    ∀ (idx : Nat), attemptedOf flag idx l = l.take (cancelCutoff flag idx l.length) := by
  induction l with
  | nil => intro idx; simp [attemptedOf, cancelCutoff]
  | cons f rest ih =>
    intro idx
    by_cases h : flag idx
    · simp [attemptedOf, cancelCutoff, h]
    · simp [attemptedOf, cancelCutoff, h, ih]

lemma attemptedOf_length_le (flag : Nat → Bool)
    (hmono : ∀ j k, j ≤ k → flag j = true → flag k = true)
    (i : Nat) (hi : flag i = true) (l : List FileSpec) :
    ∀ (idx : Nat), (attemptedOf flag idx l).length ≤ i - idx := by
  induction l with
  | nil => intro idx; simp [attemptedOf]
  | cons f rest ih =>
    intro idx
    by_cases h : flag idx
    · simp [attemptedOf, h]
    · have hlt : idx < i := by
        by_contra hge
        exact h (hmono i idx (by omega) hi)
      have := ih (idx + 1)
      simp only [attemptedOf, h, Bool.false_eq_true, ite_false, List.length_cons]
      omega

lemma filter_none_add_filterMap_err (l : List FileSpec) :
    ((l.filter (fun f => (fileFailure f).isNone)).length + (l.filterMap errEntry).length) =
      l.length := by
  induction l with
  | nil => simp
  | cons f rest ih =>
    cases h : fileFailure f
    · simp [List.filter_cons, List.filterMap_cons, errEntry, h]
      omega
    · simp [List.filter_cons, List.filterMap_cons, errEntry, h]
      omega

lemma fileChunk_filter_isResult (cfg : RunConfig) (total_files idx : Nat) (f : FileSpec) :
    (fileChunk cfg total_files idx f).filter isResult = [resultEvent f] := by
  unfold fileChunk resultEvent fileFailure okWords
  cases h : f.transcribed with
  | ok t => cases hw : f.writeFault <;> simp [hw, isResult]
  | error e => simp [isResult]

lemma fileChunk_no_allComplete (cfg : RunConfig) (total_files idx : Nat) (f : FileSpec) :
    (fileChunk cfg total_files idx f).filter isAllComplete = [] := by
  unfold fileChunk
  cases h : f.transcribed with
  | ok t => cases hw : f.writeFault <;> simp [hw, isAllComplete]
  | error e => simp [isAllComplete]

lemma fileChunk_no_logWrite (cfg : RunConfig) (total_files idx : Nat) (f : FileSpec) :
    (fileChunk cfg total_files idx f).filter isLogWriteEvent = [] := by
  unfold fileChunk
  cases h : f.transcribed with
  | ok t => cases hw : f.writeFault <;> simp [hw, isLogWriteEvent]
  | error e => simp [isLogWriteEvent]

lemma loopTrace_filter_isResult (cfg : RunConfig) (flag : Nat → Bool) (total_files : Nat)
    (l : List FileSpec) :
    ∀ (idx : Nat),
      (loopTrace cfg flag total_files idx l).filter isResult =
        (attemptedOf flag idx l).map resultEvent := by
  induction l with
  | nil => intro idx; simp [loopTrace, attemptedOf]
  | cons f rest ih =>
    intro idx
    by_cases h : flag idx
    · simp [loopTrace, attemptedOf, h, isResult]
    · simp [loopTrace, attemptedOf, h, List.filter_append, ih, fileChunk_filter_isResult]

lemma loopTrace_no_allComplete (cfg : RunConfig) (flag : Nat → Bool) (total_files : Nat)
    (l : List FileSpec) :
    ∀ (idx : Nat), (loopTrace cfg flag total_files idx l).filter isAllComplete = [] := by
  induction l with
  | nil => intro idx; simp [loopTrace]
  | cons f rest ih =>
    intro idx
    by_cases h : flag idx
    · simp [loopTrace, h, isAllComplete]
    · simp [loopTrace, h, List.filter_append, ih, fileChunk_no_allComplete]

lemma loopTrace_no_logWrite (cfg : RunConfig) (flag : Nat → Bool) (total_files : Nat)
    (l : List FileSpec) :
    ∀ (idx : Nat), (loopTrace cfg flag total_files idx l).filter isLogWriteEvent = [] := by
  induction l with
  | nil => intro idx; simp [loopTrace]
  | cons f rest ih =>
    intro idx
    by_cases h : flag idx
    · simp [loopTrace, h, isLogWriteEvent]
    · simp [loopTrace, h, List.filter_append, ih, fileChunk_no_logWrite]

lemma foldl_blocks (l : List (String × String)) :
    ∀ (init : String),
      l.foldl (fun acc pr => acc ++ "File: " ++ pr.1 ++ "\n" ++ "Error: " ++ pr.2 ++ "\n" ++
        repChar '-' 70 ++ "\n\n") init = init ++ blocksConcat l := by
  induction l with
  | nil => intro init; simp [blocksConcat]
  | cons pr rest ih =>
    intro init
    simp only [List.foldl_cons, blocksConcat, ih, errBlock]
    simp [String.append_assoc]

lemma write_error_log_eq (cfg : RunConfig) (hf : cfg.logFault = none)
    (errors : List (String × String)) :
    write_error_log cfg errors = [Event.log_write (logFileName cfg) (logContent cfg errors)] := by
  simp [write_error_log, hf, logFileName, logContent, logHeader, foldl_blocks]

/-! ## Claim theorems -/

/-- **C1, counterexample.** The claim "the summary's total word count equals
the sum of the word counts of exactly those files that were successfully
transcribed (success result emitted, output file written), and a file whose
processing fails contributes nothing" is false on the code: for a file whose
transcription call returns "hello world" (2 words) but whose output write
then raises, no success result is emitted and no output file is written, yet
the emitted summary carries `total_words = 2` (line 120 of `PyWhis.py` adds
the words before the write is attempted). -/
theorem c1_counterexample :
    (TranscriptionWorker.run
        ⟨"/out", "", none, ⟨2026, 1, 1, 0, 0, 0⟩, ⟨2026, 1, 1, 0, 0, 0⟩, 1⟩
        (fun _ => false)
        [⟨"/in/a.mp3", Except.ok "hello world", some "disk full", 1⟩]).trace =
      [Event.status "Transcribing a.mp3 (1/1)...",
       Event.error "a.mp3" "disk full",
       Event.status "Skipped a.mp3 due to error",
       Event.progress 100,
       Event.all_complete 1 2 0] ∧
    sumResultWords
      (TranscriptionWorker.run
        ⟨"/out", "", none, ⟨2026, 1, 1, 0, 0, 0⟩, ⟨2026, 1, 1, 0, 0, 0⟩, 1⟩
        (fun _ => false)
        [⟨"/in/a.mp3", Except.ok "hello world", some "disk full", 1⟩]).trace = 0 := by
  constructor
  · rfl
  · rfl

/-- **C1 (amended).** For every batch, the total word count carried by the
final summary equals the sum of the word counts of exactly those attempted
files whose *transcription call* succeeded - including a file whose output
write subsequently failed (it contributes its word count even though no
success result is emitted for it); a file whose transcription call fails
contributes nothing (`okWords` is zero there). -/
theorem summary_total_words_eq_transcribed_words (cfg : RunConfig)
    (flag : Nat → Bool) (files : List FileSpec) :
    (TranscriptionWorker.run cfg flag files).total_words =
      ((attemptedOf flag 0 files).map okWords).sum ∧
    (TranscriptionWorker.run cfg flag files).trace.getLast? =
      some (Event.all_complete cfg.totalDuration
        (TranscriptionWorker.run cfg flag files).total_words
        (TranscriptionWorker.run cfg flag files).successful_files) := by
  constructor
  · rw [run_total_words]; rfl
  · rw [run_trace, run_total_words, run_successful]
    exact List.getLast?_concat _

/-- **C2.** For every input list and every attempted file whose transcription
call or output write raises, the pair `(filename, error message)` is appended
to the accumulating failure list (in input order, one entry per failed file),
a per-file `error` signal carrying the filename and message is emitted, the
successful-file counter counts only the fully-successful files, and the set
of attempted files is the prefix of the input list determined by the
cancellation flag alone - so one file's failure never cuts the batch short. -/
theorem per_file_failure_isolated (cfg : RunConfig) (flag : Nat → Bool)
    (files : List FileSpec) :
    (TranscriptionWorker.run cfg flag files).errors =
      (attemptedOf flag 0 files).filterMap errEntry ∧
    (TranscriptionWorker.run cfg flag files).successful_files =
      ((attemptedOf flag 0 files).filter (fun f => (fileFailure f).isNone)).length ∧
    attemptedOf flag 0 files = files.take (cancelCutoff flag 0 files.length) ∧
    (∀ f ∈ attemptedOf flag 0 files, ∀ e, fileFailure f = some e →
      Event.error (pathName f.path) e ∈ (TranscriptionWorker.run cfg flag files).trace) := by
  refine ⟨?_, ?_, attemptedOf_eq_take flag files 0, ?_⟩
  · rw [run_errors]; rfl
  · rw [run_successful]; rfl
  · intro f hf e he
    have h1 : resultEvent f ∈ (attemptedOf flag 0 files).map resultEvent :=
      List.mem_map_of_mem _ hf
    rw [← loopTrace_filter_isResult cfg flag files.length files 0] at h1
    have h2 := List.mem_of_mem_filter h1
    have h3 : resultEvent f = Event.error (pathName f.path) e := by
      simp [resultEvent, he]
    rw [run_trace, ← h3]
    exact List.mem_append_left _ (List.mem_append_left _ h2)

/-- **C3.** For every batch run (completed or cancelled), the successful-file
count plus the length of the failure list plus the number of files left
unattempted after cancellation equals the total number of input files. -/
theorem batch_accounting_invariant (cfg : RunConfig) (flag : Nat → Bool)
    (files : List FileSpec) :
    (TranscriptionWorker.run cfg flag files).successful_files +
      (TranscriptionWorker.run cfg flag files).errors.length +
      (files.length - (attemptedOf flag 0 files).length) = files.length := by
  rw [run_successful, run_errors]
  have h := filter_none_add_filterMap_err (attemptedOf flag 0 files)
  have hle : (attemptedOf flag 0 files).length ≤ files.length := by
    rw [attemptedOf_eq_take flag files 0]
    simp [List.length_take]
  simp only [runSucc, runErrors]
  omega

/-- **C4.** Cancellation is cooperative.  `cancel` only ever sets the flag
(and is idempotent, so external calls set it at most once in effect and can
never clear it); the running loop reads the flag only at iteration
boundaries, so if the flag reads true from boundary `i` onwards (monotone
observations: once set, never cleared) then at most `i` files are ever
attempted; and every recorded failure belongs to an attempted file - files
left unattempted after cancellation are never reported as failures. -/
theorem cancellation_cooperative :
    (∀ s : TranscriptionWorker.Flags,
      (TranscriptionWorker.cancel s).is_cancelled = true) ∧
    (∀ s : TranscriptionWorker.Flags,
      TranscriptionWorker.cancel (TranscriptionWorker.cancel s) =
        TranscriptionWorker.cancel s) ∧
    (∀ (flag : Nat → Bool) (files : List FileSpec) (i : Nat),
      (∀ j k, j ≤ k → flag j = true → flag k = true) → flag i = true →
      (attemptedOf flag 0 files).length ≤ i) ∧
    (∀ (cfg : RunConfig) (flag : Nat → Bool) (files : List FileSpec)
      (p : String × String), p ∈ (TranscriptionWorker.run cfg flag files).errors →
      ∃ f, f ∈ attemptedOf flag 0 files ∧ errEntry f = some p) := by
  refine ⟨fun s => rfl, fun s => rfl, ?_, ?_⟩
  · intro flag files i hmono hi
    have h := attemptedOf_length_le flag hmono i hi files 0
    omega
  · intro cfg flag files p hp
    rw [run_errors] at hp
    simp only [runErrors] at hp
    exact List.mem_filterMap.mp hp

/-- **C4, witness.** At a flag that reads true from boundary 2 onwards over a
five-file batch, at most two files are attempted; and the single recorded
failure of a one-file batch comes from an attempted file. -/
theorem cancellation_cooperative_witness :
    (attemptedOf (fun j => decide (2 ≤ j)) 0
      [⟨"/in/a.mp3", Except.ok "hello world", none, 1⟩,
       ⟨"/in/a.mp3", Except.ok "hello world", none, 1⟩,
       ⟨"/in/a.mp3", Except.ok "hello world", none, 1⟩,
       ⟨"/in/a.mp3", Except.ok "hello world", none, 1⟩,
       ⟨"/in/a.mp3", Except.ok "hello world", none, 1⟩]).length ≤ 2 ∧
    (∃ f, f ∈ attemptedOf (fun _ => false) 0
        [⟨"/in/b.mp3", Except.error "decode error", none, 0⟩] ∧
      errEntry f = some ("b.mp3", "decode error")) := by
  constructor
  · exact cancellation_cooperative.2.2.1 (fun j => decide (2 ≤ j))
      [⟨"/in/a.mp3", Except.ok "hello world", none, 1⟩,
       ⟨"/in/a.mp3", Except.ok "hello world", none, 1⟩,
       ⟨"/in/a.mp3", Except.ok "hello world", none, 1⟩,
       ⟨"/in/a.mp3", Except.ok "hello world", none, 1⟩,
       ⟨"/in/a.mp3", Except.ok "hello world", none, 1⟩] 2
      (by intro j k hjk h2; simp only [decide_eq_true_eq] at *; omega)
      (by decide)
  · exact cancellation_cooperative.2.2.2
      ⟨"/out", "", none, ⟨2026, 1, 1, 0, 0, 0⟩, ⟨2026, 1, 1, 0, 0, 0⟩, 1⟩
      (fun _ => false)
      [⟨"/in/b.mp3", Except.error "decode error", none, 0⟩]
      ("b.mp3", "decode error")
      (by decide)

/-- **C5.** For every run (list exhaustion or cancellation alike), assuming
the log write itself does not fault: the per-file results appear in the trace
in input-list order (one result per attempted file); the batch summary is
the last event of the trace and occurs exactly once; and when an error log
is due (failures recorded and a directory configured) it is persisted
immediately before the summary - cancellation suppresses neither. -/
theorem results_ordered_summary_last (cfg : RunConfig) (flag : Nat → Bool)
    (files : List FileSpec) (hlog : cfg.logFault = none) :
    ((TranscriptionWorker.run cfg flag files).trace.filter isResult =
      (attemptedOf flag 0 files).map resultEvent) ∧
    ((TranscriptionWorker.run cfg flag files).trace.getLast? =
      some (Event.all_complete cfg.totalDuration (runWords flag files)
        (runSucc flag files))) ∧
    ((TranscriptionWorker.run cfg flag files).trace.filter isAllComplete =
      [Event.all_complete cfg.totalDuration (runWords flag files)
        (runSucc flag files)]) ∧
    (runErrors flag files ≠ [] → cfg.error_log_path ≠ "" →
      ∃ pre, (TranscriptionWorker.run cfg flag files).trace =
        pre ++ [Event.log_write (logFileName cfg)
                  (logContent cfg (runErrors flag files)),
                Event.all_complete cfg.totalDuration (runWords flag files)
                  (runSucc flag files)]) := by
  refine ⟨?_, ?_, ?_, ?_⟩
  · rw [run_trace]
    simp only [List.filter_append]
    rw [loopTrace_filter_isResult]
    by_cases hc : runErrors flag files ≠ [] ∧ cfg.error_log_path ≠ ""
    · rw [if_pos hc, write_error_log_eq cfg hlog]
      simp [isResult]
    · rw [if_neg hc]
      simp [isResult]
  · rw [run_trace]
    exact List.getLast?_concat _
  · rw [run_trace]
    simp only [List.filter_append]
    rw [loopTrace_no_allComplete]
    by_cases hc : runErrors flag files ≠ [] ∧ cfg.error_log_path ≠ ""
    · rw [if_pos hc, write_error_log_eq cfg hlog]
      simp [isAllComplete]
    · rw [if_neg hc]
      simp [isAllComplete]
  · intro hne hpath
    rw [run_trace, if_pos ⟨hne, hpath⟩, write_error_log_eq cfg hlog]
    exact ⟨loopTrace cfg flag files.length 0 files, by simp⟩

/-- **C5, witness.** On the two-file batch where `a.mp3` succeeds and
`b.mp3` fails, with a configured log directory and no log fault: the result
events are the success for `a.mp3` then the error for `b.mp3`, in input
order, and the trace ends with the log write followed by the summary. -/
theorem results_ordered_summary_last_witness :
    ((TranscriptionWorker.run
        ⟨"/out", "/logs", none, ⟨2026, 1, 1, 0, 0, 0⟩, ⟨2026, 1, 1, 0, 0, 0⟩, 1⟩
        (fun _ => false)
        [⟨"/in/a.mp3", Except.ok "hello world", none, 1⟩,
         ⟨"/in/b.mp3", Except.error "decode error", none, 0⟩]).trace.filter isResult =
      [Event.file_complete "a.mp3" 1 2, Event.error "b.mp3" "decode error"]) ∧
    (∃ pre, (TranscriptionWorker.run
        ⟨"/out", "/logs", none, ⟨2026, 1, 1, 0, 0, 0⟩, ⟨2026, 1, 1, 0, 0, 0⟩, 1⟩
        (fun _ => false)
        [⟨"/in/a.mp3", Except.ok "hello world", none, 1⟩,
         ⟨"/in/b.mp3", Except.error "decode error", none, 0⟩]).trace =
      pre ++ [Event.log_write
                (logFileName ⟨"/out", "/logs", none, ⟨2026, 1, 1, 0, 0, 0⟩,
                  ⟨2026, 1, 1, 0, 0, 0⟩, 1⟩)
                (logContent ⟨"/out", "/logs", none, ⟨2026, 1, 1, 0, 0, 0⟩,
                  ⟨2026, 1, 1, 0, 0, 0⟩, 1⟩
                  (runErrors (fun _ => false)
                    [⟨"/in/a.mp3", Except.ok "hello world", none, 1⟩,
                     ⟨"/in/b.mp3", Except.error "decode error", none, 0⟩])),
              Event.all_complete 1
                (runWords (fun _ => false)
                  [⟨"/in/a.mp3", Except.ok "hello world", none, 1⟩,
                   ⟨"/in/b.mp3", Except.error "decode error", none, 0⟩])
                (runSucc (fun _ => false)
                  [⟨"/in/a.mp3", Except.ok "hello world", none, 1⟩,
                   ⟨"/in/b.mp3", Except.error "decode error", none, 0⟩])]) := by
  have h := results_ordered_summary_last
    ⟨"/out", "/logs", none, ⟨2026, 1, 1, 0, 0, 0⟩, ⟨2026, 1, 1, 0, 0, 0⟩, 1⟩
    (fun _ => false)
    [⟨"/in/a.mp3", Except.ok "hello world", none, 1⟩,
     ⟨"/in/b.mp3", Except.error "decode error", none, 0⟩]
    rfl
  refine ⟨?_, h.2.2.2 (by decide) (by decide)⟩
  rw [h.1]
  rfl

/-- **C6.** Assuming the log write itself does not fault: a run's trace
contains exactly one error-log write when at least one per-file failure was
recorded and an error-log directory is configured (non-empty path), and none
otherwise - in particular, with zero failures no log file is written even
when a directory is configured; and "a failure was recorded" coincides with
"some attempted file failed". -/
theorem error_log_written_iff (cfg : RunConfig) (flag : Nat → Bool)
    (files : List FileSpec) (hlog : cfg.logFault = none) :
    ((TranscriptionWorker.run cfg flag files).trace.filter isLogWriteEvent =
      (if runErrors flag files ≠ [] ∧ cfg.error_log_path ≠ "" then
        [Event.log_write (logFileName cfg) (logContent cfg (runErrors flag files))]
      else [])) ∧
    (runErrors flag files ≠ [] ↔
      ((attemptedOf flag 0 files).filter (fun f => (fileFailure f).isSome)) ≠ []) := by
  constructor
  · rw [run_trace]
    simp only [List.filter_append]
    rw [loopTrace_no_logWrite]
    by_cases hc : runErrors flag files ≠ [] ∧ cfg.error_log_path ≠ ""
    · rw [if_pos hc, if_pos hc, write_error_log_eq cfg hlog]
      simp [isLogWriteEvent]
    · rw [if_neg hc, if_neg hc]
      simp [isLogWriteEvent]
  · have h : (runErrors flag files = []) ↔
        ((attemptedOf flag 0 files).filter (fun f => (fileFailure f).isSome) = []) := by
      simp only [runErrors, List.filterMap_eq_nil_iff, List.filter_eq_nil_iff]
      constructor
      · intro h f hf
        have := h f hf
        simp only [errEntry, Option.map_eq_none'] at this
        simp [this]
      · intro h f hf
        have := h f hf
        simp only [errEntry, Option.map_eq_none']
        simpa using this
    exact not_congr h

/-- **C6, witness.** One failing file with a configured directory yields
exactly one log write; one fully successful file with the same configured
directory yields none. -/
theorem error_log_written_iff_witness :
    ((TranscriptionWorker.run
        ⟨"/out", "/logs", none, ⟨2026, 1, 1, 0, 0, 0⟩, ⟨2026, 1, 1, 0, 0, 0⟩, 1⟩
        (fun _ => false)
        [⟨"/in/b.mp3", Except.error "decode error", none, 0⟩]).trace.filter
          isLogWriteEvent =
      [Event.log_write
        (logFileName ⟨"/out", "/logs", none, ⟨2026, 1, 1, 0, 0, 0⟩,
          ⟨2026, 1, 1, 0, 0, 0⟩, 1⟩)
        (logContent ⟨"/out", "/logs", none, ⟨2026, 1, 1, 0, 0, 0⟩,
          ⟨2026, 1, 1, 0, 0, 0⟩, 1⟩
          (runErrors (fun _ => false)
            [⟨"/in/b.mp3", Except.error "decode error", none, 0⟩]))]) ∧
    ((TranscriptionWorker.run
        ⟨"/out", "/logs", none, ⟨2026, 1, 1, 0, 0, 0⟩, ⟨2026, 1, 1, 0, 0, 0⟩, 1⟩
        (fun _ => false)
        [⟨"/in/a.mp3", Except.ok "hello world", none, 1⟩]).trace.filter
          isLogWriteEvent = []) := by
  constructor
  · have h := (error_log_written_iff
      ⟨"/out", "/logs", none, ⟨2026, 1, 1, 0, 0, 0⟩, ⟨2026, 1, 1, 0, 0, 0⟩, 1⟩
      (fun _ => false)
      [⟨"/in/b.mp3", Except.error "decode error", none, 0⟩] rfl).1
    rw [h, if_pos]
    exact ⟨by decide, by decide⟩
  · have h := (error_log_written_iff
      ⟨"/out", "/logs", none, ⟨2026, 1, 1, 0, 0, 0⟩, ⟨2026, 1, 1, 0, 0, 0⟩, 1⟩
      (fun _ => false)
      [⟨"/in/a.mp3", Except.ok "hello world", none, 1⟩] rfl).1
    rw [h, if_neg]
    intro hc
    exact absurd hc.1 (by decide)

/-- **C7.** Assuming the log write does not fault, the error log produced
for a failure list is a single text file named
`transcription_errors_<YYYYMMDD_HHMMSS>.log` in the configured error-log
directory, whose content is a header line carrying the creation timestamp
(followed by a rule of 70 `=`), then one block per failed file, in the order
the failures occurred, each block using the literal labels `File:` and
`Error:` and followed by a separator line of 70 `-` characters (so a
separator stands between any two consecutive blocks). -/
theorem error_log_format (cfg : RunConfig) (errors : List (String × String))
    (hlog : cfg.logFault = none) :
    write_error_log cfg errors =
      [Event.log_write
        (pathJoin cfg.error_log_path
          ("transcription_errors_" ++ strftimeCompact cfg.nowName ++ ".log"))
        (("Transcription Error Log - " ++ strftimeHuman cfg.nowHeader ++ "\n" ++
            repChar '=' 70 ++ "\n\n") ++ blocksConcat errors)] ∧
    errBlock = (fun pr => "File: " ++ pr.1 ++ "\n" ++ "Error: " ++ pr.2 ++ "\n" ++
      repChar '-' 70 ++ "\n\n") := by
  constructor
  · rw [write_error_log_eq cfg hlog]
    rfl
  · rfl

set_option maxRecDepth 4096 in
/-- **C7, witness.** The log for one failure `("b.mp3", "decode error")`,
with the two `datetime.now()` readings 2026-01-01 00:00:00 (name) and
2026-01-02 03:04:05 (header), spelled out. -/
theorem error_log_format_witness :
    write_error_log
      ⟨"/out", "/logs", none, ⟨2026, 1, 1, 0, 0, 0⟩, ⟨2026, 1, 2, 3, 4, 5⟩, 1⟩
      [("b.mp3", "decode error")] =
      [Event.log_write "/logs/transcription_errors_20260101_000000.log"
        ("Transcription Error Log - 2026-01-02 03:04:05\n" ++ repChar '=' 70 ++
          "\n\n" ++ "File: b.mp3\n" ++ "Error: decode error\n" ++ repChar '-' 70 ++
          "\n\n")] := by
  rw [(error_log_format
    ⟨"/out", "/logs", none, ⟨2026, 1, 1, 0, 0, 0⟩, ⟨2026, 1, 2, 3, 4, 5⟩, 1⟩
    [("b.mp3", "decode error")] rfl).1]
  decide

/-- **C8.** For every valid model identifier (one registered in
`MODEL_URLS`), if the artifact already exists at the deterministic path
`<models_dir>/<model_id>.pt` when acquisition is requested, the task's whole
trace is a status emission followed by the success signal carrying that
path: no directory creation, no transfer, and no progress event occur. -/
theorem model_exists_skips_transfer (model_name models_dir : String)
    (url : String) (h : MODEL_URLS.lookup model_name = some url) (env : DlEnv)
    (he : env.modelExists = true) :
    ModelDownloadWorker.run model_name models_dir env =
      [DlEvent.status "Model already exists, loading...",
       DlEvent.finished_download (pathJoin models_dir (model_name ++ ".pt"))] := by
  simp [ModelDownloadWorker.run, h, he]

/-- **C8, witness.** The `tiny` model with an existing artifact under
`/models`: the trace is the status plus the success signal for
`/models/tiny.pt`. -/
theorem model_exists_skips_transfer_witness :
    ModelDownloadWorker.run "tiny" "/models" ⟨true, [], none⟩ =
      [DlEvent.status "Model already exists, loading...",
       DlEvent.finished_download (pathJoin "/models" ("tiny" ++ ".pt"))] :=
  model_exists_skips_transfer "tiny" "/models"
    "https://openaipublic.azureedge.net/main/whisper/models/65147644a518d12f04e32d6f3b26facc3f8dd46e5390956a9424a650c0ce22b9/tiny.pt"
    (by decide) ⟨true, [], none⟩ rfl

/-- **C9, counterexample.** The claim "every emitted progress percentage
equals `floor(bytes_downloaded / total_bytes * 100)`" is false on the code:
at 29000000 bytes of a known 100000000-byte total, the exact floor is 29,
but line 67 computes `int((downloaded / total_size) * 100)` in
double-precision floats - the double nearest 0.29 lies just below it, so
the program emits 28. -/
theorem c9_counterexample :
    report_progress 1 29000000 100000000 =
      [DlEvent.progress 28,
       DlEvent.status "Downloading: 27.7 MB / 95.4 MB"] ∧
    1 * 29000000 * 100 / (100000000 : Int).toNat = 29 := by
  constructor
  · decide
  · decide

/-- **C9 (amended).** For every invocation of the download report hook:
when the total size is reported positive, it emits exactly one progress
percentage equal to `int((bytes_downloaded / total_bytes) * 100)` evaluated
in IEEE-754 double precision (with `bytes_downloaded = block_num *
block_size`) - which can fall one below the exact
`floor(bytes_downloaded / total_bytes * 100)` - accompanied by a status
string giving bytes-downloaded and bytes-total in MB with one decimal
place; when the total size is not positive (unknown), it emits nothing -
no fabricated percentage. -/
theorem download_progress_float_formula (block_num block_size : Nat)
    (total_size : Int) :
    (0 < total_size →
      report_progress block_num block_size total_size =
        [DlEvent.progress (pyPercent (block_num * block_size) total_size.toNat),
         DlEvent.status ("Downloading: " ++ fmtMB (block_num * block_size) ++
           " MB / " ++ fmtMB total_size.toNat ++ " MB")]) ∧
    (total_size ≤ 0 → report_progress block_num block_size total_size = []) := by
  constructor
  · intro h
    rw [report_progress, if_pos h]
  · intro h
    rw [report_progress, if_neg (by omega)]

/-- **C9, witness.** 100 blocks of 1 MiB out of a known 200 MiB total give
50 percent (here the float computation is exact) and the status
`100.0 MB / 200.0 MB`; an unknown total size (`-1`, as `urlretrieve`
reports it) emits nothing. -/
theorem download_progress_float_formula_witness :
    (report_progress 100 1048576 209715200 =
      [DlEvent.progress 50,
       DlEvent.status "Downloading: 100.0 MB / 200.0 MB"]) ∧
    report_progress 3 1024 (-1) = [] := by
  constructor
  · rw [(download_progress_float_formula 100 1048576 209715200).1 (by decide)]
    decide
  · exact (download_progress_float_formula 3 1024 (-1)).2 (by decide)

/-- **C10.** Started on an empty file list, the task does not crash and its
whole final state is literal: no per-file loop iteration happens, so the
trace carries no progress event (the division by the total file count is
never evaluated), no per-file result and no error entry, and consists of
exactly one summary with zero total words and zero successful files. -/
theorem empty_batch_emits_summary_only (cfg : RunConfig) (flag : Nat → Bool) :
    TranscriptionWorker.run cfg flag [] =
      ⟨0, 0, [], [Event.all_complete cfg.totalDuration 0 0]⟩ ∧
    (TranscriptionWorker.run cfg flag []).trace.filter isProgressEvent = [] ∧
    (TranscriptionWorker.run cfg flag []).trace.filter isResult = [] := by
  have h : TranscriptionWorker.run cfg flag [] =
      ⟨0, 0, [], [Event.all_complete cfg.totalDuration 0 0]⟩ := by
    simp [TranscriptionWorker.run, runLoop]
  refine ⟨h, ?_, ?_⟩
  · rw [h]; rfl
  · rw [h]; rfl

/-- **C2, witness.** On the batch `[a.mp3 (succeeds), b.mp3 (decode
error)]`, the failure list is exactly `[("b.mp3", "decode error")]` and the
per-file error signal for `b.mp3` is in the trace. -/
theorem per_file_failure_isolated_witness :
    ((TranscriptionWorker.run
        ⟨"/out", "/logs", none, ⟨2026, 1, 1, 0, 0, 0⟩, ⟨2026, 1, 1, 0, 0, 0⟩, 1⟩
        (fun _ => false)
        [⟨"/in/a.mp3", Except.ok "hello world", none, 1⟩,
         ⟨"/in/b.mp3", Except.error "decode error", none, 0⟩]).errors =
      [("b.mp3", "decode error")]) ∧
    Event.error "b.mp3" "decode error" ∈
      (TranscriptionWorker.run
        ⟨"/out", "/logs", none, ⟨2026, 1, 1, 0, 0, 0⟩, ⟨2026, 1, 1, 0, 0, 0⟩, 1⟩
        (fun _ => false)
        [⟨"/in/a.mp3", Except.ok "hello world", none, 1⟩,
         ⟨"/in/b.mp3", Except.error "decode error", none, 0⟩]).trace := by
  have h := per_file_failure_isolated
    ⟨"/out", "/logs", none, ⟨2026, 1, 1, 0, 0, 0⟩, ⟨2026, 1, 1, 0, 0, 0⟩, 1⟩
    (fun _ => false)
    [⟨"/in/a.mp3", Except.ok "hello world", none, 1⟩,
     ⟨"/in/b.mp3", Except.error "decode error", none, 0⟩]
  constructor
  · rw [h.1]; rfl
  · exact h.2.2.2 ⟨"/in/b.mp3", Except.error "decode error", none, 0⟩
      (by decide) "decode error" rfl
